import Mathlib

/-!
Shallow embedding of the MJ5-website backend's authentication subsystem
(src/auth.js) and ephemeral upload registry (src/upload.js), together with
the batch image-upload endpoint of the server (POST /api/motorcycles/:id/images).

Modelling conventions:
  * JWTs are modelled symbolically: a token records its payload, the secret it
    was signed with, and its expiry instant (milliseconds).  `jwt.verify`
    succeeds exactly when the signing secret matches and the token is not
    expired (standard symbolic-crypto unforgeability assumption).
  * The PostgreSQL `admin_users` table is a list of rows; `SELECT ... WHERE
    username = $1` / `WHERE id = $1` with `rows[0]` becomes `List.find?`.
  * `bcrypt.compare` is an opaque boolean oracle passed as a parameter.
  * `crypto.randomBytes(16)` is modelled by passing the random bytes in as an
    argument (a list of byte values).
  * The in-memory `uploads` Map is an association list, newest entry first:
    `Map.set` prepends and `Map.get` returns the first match, which is
    observationally equivalent for get/set.
  * Throwing JS code is modelled with `Except`; `file.data = none` models a
    payload whose byte buffer is absent/unreadable, the situation in which
    `file.data.toString('base64')` throws and `uploadFile` raises
    `'File upload failed'`.
-/

namespace MJ5

/-! ### Token service (src/auth.js) -/

/-- The signing secret (`process.env.JWT_SECRET || 'mwirutijnr-secret-key-2025'`,
modelled with the documented development default). -/
def jwtSecret : String := "mwirutijnr-secret-key-2025"

/-- Milliseconds in 24 hours, the token lifetime (`expiresIn: '24h'`). -/
def tokenLifetime : Nat := 24 * 60 * 60 * 1000

/-- The claims carried by a token: `{ userId, type: 'admin' }`. -/
structure JwtPayload where
  userId : Nat
  typ : String
deriving DecidableEq, Repr

/-- A signed token: payload, the secret used at signature time, expiry instant. -/
structure Jwt where
  payload : JwtPayload
  signedWith : String
  exp : Nat
deriving DecidableEq, Repr

/-- `jwt.sign(payload, secret, { expiresIn: '24h' })` at instant `now`. -/
def jwtSign (p : JwtPayload) (secret : String) (now : Nat) : Jwt :=
  { payload := p, signedWith := secret, exp := now + tokenLifetime }

/-- `jwt.verify(token, secret)` at instant `now`: succeeds exactly when the
signature verifies against `secret` and the token is unexpired. -/
def jwtVerify (t : Jwt) (secret : String) (now : Nat) : Option JwtPayload :=
  if t.signedWith = secret ∧ now < t.exp then some t.payload else none

/-- `generateToken(userId)` from src/auth.js. -/
def generateToken (userId : Nat) (now : Nat) : Jwt :=
  jwtSign { userId := userId, typ := "admin" } jwtSecret now

/-- `verifyToken(token)` from src/auth.js: `jwt.verify` against the service
secret, `null` (here `none`) on any verification error. -/
def verifyToken (now : Nat) (t : Jwt) : Option JwtPayload :=
  jwtVerify t jwtSecret now

/-- A row of the `admin_users` table. -/
structure AdminUser where
  id : Nat
  username : String
  passwordHash : String
deriving DecidableEq, Repr

/-- The result object of `adminLogin`. -/
structure LoginResult where
  success : Bool
  token : Option Jwt
  expiry : Option Nat
  error : Option String
deriving DecidableEq, Repr

/-- `adminLogin(username, password)` from src/auth.js.  `db` is the
`admin_users` table, `bc` models `bcrypt.compare`. -/
def adminLogin (db : List AdminUser) (bc : String → String → Bool)
    (now : Nat) (username password : String) : LoginResult :=
  match db.find? (fun u => u.username == username) with
  | none => { success := false, token := none, expiry := none,
              error := some "Invalid credentials" }
  | some user =>
    if bc password user.passwordHash then
      { success := true, token := some (generateToken user.id now),
        expiry := some (now + tokenLifetime), error := none }
    else
      { success := false, token := none, expiry := none,
        error := some "Invalid credentials" }

/-- The result object of `verifyAdminToken`: `userId` is `none` on the early
`{ valid: false }` returns, which carry no `userId` field. -/
structure VerifyResult where
  valid : Bool
  userId : Option Nat
deriving DecidableEq, Repr

/-- `verifyAdminToken(token)` from src/auth.js. -/
def verifyAdminToken (db : List AdminUser) (now : Nat) (t : Jwt) : VerifyResult :=
  match verifyToken now t with
  | none => { valid := false, userId := none }
  | some decoded =>
    if decoded.typ ≠ "admin" then { valid := false, userId := none }
    else
      { valid := (db.find? (fun u => u.id == decoded.userId)).isSome,
        userId := some decoded.userId }

/-- The authorization header of an inbound request: absent, present but not of
the shape `Bearer <token>`, or a bearer token. -/
inductive AuthHeader where
  | missing
  | malformed
  | bearer (t : Jwt)
deriving DecidableEq, Repr

/-- The outcome of the middleware: a 401 rejection with an error message, or
admission to the downstream handler with `req.userId` set. -/
inductive GateResult where
  | reject (status : Nat) (error : String)
  | allow (userId : Nat)
deriving DecidableEq, Repr

/-- `authMiddleware(req, res, next)` from src/auth.js.  Note it calls
`verifyToken` only: it never consults the `admin_users` table. -/
def authMiddleware (now : Nat) (h : AuthHeader) : GateResult :=
  match h with
  | .missing => .reject 401 "No token provided"
  | .malformed => .reject 401 "No token provided"
  | .bearer t =>
    match verifyToken now t with
    | none => .reject 401 "Invalid token"
    | some decoded =>
      if decoded.typ ≠ "admin" then .reject 401 "Invalid token"
      else .allow decoded.userId

/-! ### Upload registry (src/upload.js) -/

/-- The lower-case hexadecimal alphabet used by `Buffer.toString('hex')`. -/
def hexDigits : List Char := "0123456789abcdef".toList

/-- One hex digit. -/
def hexDigit (n : Nat) : Char := hexDigits.getD n '0'

/-- `buffer.toString('hex')`: fixed-width hexadecimal rendering of a byte
list, two zero-padded digits per byte. -/
def hexEncode : List Nat → List Char
  | [] => []
  | b :: bs => hexDigit (b / 16) :: hexDigit (b % 16) :: hexEncode bs

/-- Index of a character in an alphabet. -/
def charIndex (cs : List Char) (c : Char) : Option Nat :=
  match cs with
  | [] => none
  | d :: ds => if d = c then some 0 else (charIndex ds c).map (· + 1)

/-- Numeric value of a hex digit. -/
def hexVal (c : Char) : Option Nat := charIndex hexDigits c

/-- Inverse of `hexEncode` (two digits per byte). -/
def hexDecode : List Char → Option (List Nat)
  | [] => some []
  | [_] => none
  | h :: l :: rest =>
    match hexVal h, hexVal l, hexDecode rest with
    | some hi, some lo, some tail => some ((hi * 16 + lo) :: tail)
    | _, _, _ => none

/-- The standard base64 alphabet used by `Buffer.toString('base64')`. -/
def base64Chars : List Char :=
  "ABCDEFGHIJKLMNOPQRSTUVWXYZabcdefghijklmnopqrstuvwxyz0123456789+/".toList

/-- One base64 digit. -/
def b64c (n : Nat) : Char := base64Chars.getD n 'A'

/-- Numeric value of a base64 digit (`none` for padding and foreign characters). -/
def base64Val (c : Char) : Option Nat := charIndex base64Chars c

/-- `buffer.toString('base64')`: standard padded base64 of a byte list. -/
def base64Encode : List Nat → List Char
  | [] => []
  | [a] => [b64c (a / 4), b64c (a % 4 * 16), '=', '=']
  | [a, b] => [b64c (a / 4), b64c (a % 4 * 16 + b / 16), b64c (b % 16 * 4), '=']
  | a :: b :: c :: rest =>
    b64c (a / 4) :: b64c (a % 4 * 16 + b / 16) :: b64c (b % 16 * 4 + c / 64) ::
      b64c (c % 64) :: base64Encode rest

/-- First byte recovered from base64 digits 1 and 2. -/
def b64Byte1 (a b : Nat) : Nat := a * 4 + b / 16

/-- Second byte recovered from base64 digits 2 and 3. -/
def b64Byte2 (b c : Nat) : Nat := b % 16 * 16 + c / 4

/-- Third byte recovered from base64 digits 3 and 4. -/
def b64Byte3 (c d : Nat) : Nat := c % 4 * 64 + d

/-- Inverse of `base64Encode`: decodes groups of four characters, accepting
padding only in a final group. -/
def base64Decode : List Char → Option (List Nat)
  | [] => some []
  | w :: x :: y :: z :: rest =>
    match base64Val w, base64Val x with
    | some a, some b =>
      if y = '=' then
        if z = '=' ∧ rest = [] then some [b64Byte1 a b] else none
      else
        match base64Val y with
        | some c =>
          if z = '=' then
            if rest = [] then some [b64Byte1 a b, b64Byte2 b c] else none
          else
            match base64Val z, base64Decode rest with
            | some d, some tail =>
              some (b64Byte1 a b :: b64Byte2 b c :: b64Byte3 c d :: tail)
            | _, _ => none
        | none => none
    | _, _ => none
  | _ => none

/-- The labeled payload structure handed to `uploadFile` by express-fileupload:
`{ name, data, size, mimetype }`.  `data = none` models a payload whose byte
buffer is absent/unreadable, in which case `data.toString('base64')` throws. -/
structure UploadedFile where
  name : String
  data : Option (List Nat)
  size : Nat
  mimetype : String
deriving DecidableEq, Repr

/-- The `fileInfo` record stored in the `uploads` map. -/
structure FileInfo where
  id : String
  name : String
  size : Nat
  mimetype : String
  dataUrl : String
  createdAt : Nat
deriving DecidableEq, Repr

/-- The object returned by `uploadFile`. -/
structure UploadResult where
  id : String
  url : String
  name : String
  size : Nat
deriving DecidableEq, Repr

/-- The in-memory `uploads` Map: association list, newest entry first. -/
abbrev UploadsMap := List (String × FileInfo)

/-- `Map.get`. -/
def mapGet (m : UploadsMap) (k : String) : Option FileInfo :=
  (m.find? (fun e => e.1 == k)).map (fun e => e.2)

/-- The `data:<mimetype>;base64,<data>` URL built by `uploadFile`. -/
def dataUrlOf (mimetype : String) (bytes : List Nat) : String :=
  "data:" ++ mimetype ++ ";base64," ++ String.mk (base64Encode bytes)

/-- `uploadFile(file)` from src/upload.js.  `rand` is the output of
`crypto.randomBytes(16)`; `now` the clock reading for `createdAt`; `st` the
current `uploads` map.  A payload with no readable byte buffer makes the body
throw, caught and re-raised as `'File upload failed'`. -/
def uploadFile (rand : List Nat) (now : Nat) (st : UploadsMap)
    (file : UploadedFile) : Except String (UploadResult × UploadsMap) :=
  match file.data with
  | none => .error "File upload failed"
  | some bytes =>
    let fileId := String.mk (hexEncode rand)
    let dataUrl := dataUrlOf file.mimetype bytes
    let info : FileInfo :=
      { id := fileId, name := file.name, size := file.size,
        mimetype := file.mimetype, dataUrl := dataUrl, createdAt := now }
    .ok ({ id := fileId, url := dataUrl, name := file.name, size := file.size },
         (fileId, info) :: st)

/-- `getFile(fileId)` from src/upload.js (`undefined` becomes `none`). -/
def getFile (st : UploadsMap) (fileId : String) : Option FileInfo :=
  mapGet st fileId

/-! ### Batch image-upload endpoint (POST /api/motorcycles/:id/images) -/

/-- `s.startsWith(pre)` on JS strings, modelled structurally over the
character lists so that it evaluates by reduction. -/
def strStartsWith (s pre : String) : Bool := s.data.take pre.data.length == pre.data

/-- A row of `motorcycle_images` as returned by the INSERT. -/
structure ImageRow where
  imageUrl : String
  imageName : String
  size : Nat
  isPrimary : Bool
deriving DecidableEq, Repr

/-- The endpoint's response, together with the final states of the `uploads`
map and of the `motorcycle_images` rows for this motorcycle (side effects made
before an abort persist). -/
inductive BatchResponse where
  | ok (images : List ImageRow) (uploads : UploadsMap) (db : List ImageRow)
  | badRequest (error : String)
  | serverError (error : String) (uploads : UploadsMap) (db : List ImageRow)
deriving DecidableEq, Repr

/-- The `for (const file of files)` loop of the endpoint: skips payloads that
fail the mimetype or size validation, registers the rest via `uploadFile`,
computes `is_primary` from the current row count, and inserts a row.  A throw
from `uploadFile` escapes the loop into the handler's catch, which answers
500 `'Server error'`.  `rands` supplies one `crypto.randomBytes(16)` output per
registered payload; `db` holds the motorcycle's existing image rows. -/
def processFiles (now maxSize : Nat) :
    List (List Nat) → UploadsMap → List ImageRow → List ImageRow →
    List UploadedFile → BatchResponse
  | _, st, db, acc, [] => .ok acc.reverse st db
  | rands, st, db, acc, file :: rest =>
    if strStartsWith file.mimetype "image/" = false then
      processFiles now maxSize rands st db acc rest
    else if maxSize < file.size then
      processFiles now maxSize rands st db acc rest
    else
      match uploadFile (rands.headD []) now st file with
      | .error _ => .serverError "Server error" st db
      | .ok (r, st') =>
        let isPrimary := db.length == 0
        let row : ImageRow :=
          { imageUrl := r.url, imageName := r.name, size := r.size,
            isPrimary := isPrimary }
        processFiles now maxSize rands.tail st' (db ++ [row]) (row :: acc) rest

/-- The handler body: 400 when no files were sent, otherwise the loop. -/
def postMotorcycleImages (now maxSize : Nat) (rands : List (List Nat))
    (st : UploadsMap) (db : List ImageRow)
    (files : Option (List UploadedFile)) : BatchResponse :=
  match files with
  | none => .badRequest "No files uploaded"
  | some [] => .badRequest "No files uploaded"
  | some fs => processFiles now maxSize rands st db [] fs

/-! ### Codec lemmas -/

theorem hexVal_hexDigit : ∀ n < 16, hexVal (hexDigit n) = some n := by decide

theorem hexDigit_mem : ∀ n < 16, hexDigit n ∈ hexDigits := by decide

theorem b64Val_b64c : ∀ n < 64, base64Val (b64c n) = some n := by decide

theorem b64c_ne_pad : ∀ n < 64, b64c n ≠ '=' := by decide

theorem hexEncode_length (bs : List Nat) : (hexEncode bs).length = 2 * bs.length := by
  induction bs with
  | nil => rfl
  | cons b bs ih => simp [hexEncode, ih]; omega

theorem hexEncode_mem (bs : List Nat) (h : ∀ b ∈ bs, b < 256) :
    ∀ c ∈ hexEncode bs, c ∈ hexDigits := by
  induction bs with
  | nil => simp [hexEncode]
  | cons b bs ih =>
    have hb : b < 256 := h b (by simp)
    intro c hc
    simp only [hexEncode, List.mem_cons] at hc
    rcases hc with rfl | rfl | hc
    · exact hexDigit_mem _ (by omega)
    · exact hexDigit_mem _ (by omega)
    · exact ih (fun x hx => h x (by simp [hx])) c hc

theorem hexDecode_hexEncode (bs : List Nat) (h : ∀ b ∈ bs, b < 256) :
    hexDecode (hexEncode bs) = some bs := by
  induction bs with
  | nil => rfl
  | cons b bs ih =>
    have hb : b < 256 := h b (by simp)
    have h1 : hexVal (hexDigit (b / 16)) = some (b / 16) := hexVal_hexDigit _ (by omega)
    have h2 : hexVal (hexDigit (b % 16)) = some (b % 16) := hexVal_hexDigit _ (by omega)
    have hbb : b / 16 * 16 + b % 16 = b := by omega
    simp [hexEncode, hexDecode, h1, h2, ih (fun x hx => h x (by simp [hx])), hbb]

theorem hexEncode_injOn (bs₁ bs₂ : List Nat) (h₁ : ∀ b ∈ bs₁, b < 256)
    (h₂ : ∀ b ∈ bs₂, b < 256) (heq : hexEncode bs₁ = hexEncode bs₂) : bs₁ = bs₂ := by
  have e₁ := hexDecode_hexEncode bs₁ h₁
  have e₂ := hexDecode_hexEncode bs₂ h₂
  rw [heq, e₂] at e₁
  exact (Option.some_inj.mp e₁).symm

theorem base64Decode_base64Encode (bs : List Nat) (h : ∀ b ∈ bs, b < 256) :
    base64Decode (base64Encode bs) = some bs := by
  induction bs using base64Encode.induct with
  | case1 => rfl
  | case2 a =>
    have ha : a < 256 := h a (by simp)
    have h1 : base64Val (b64c (a / 4)) = some (a / 4) := b64Val_b64c _ (by omega)
    have h2 : base64Val (b64c (a % 4 * 16)) = some (a % 4 * 16) := b64Val_b64c _ (by omega)
    have e1 : b64Byte1 (a / 4) (a % 4 * 16) = a := by unfold b64Byte1; omega
    simp [base64Encode, base64Decode, h1, h2, e1]
  | case3 a b =>
    have ha : a < 256 := h a (by simp)
    have hb : b < 256 := h b (by simp)
    have h1 : base64Val (b64c (a / 4)) = some (a / 4) := b64Val_b64c _ (by omega)
    have h2 : base64Val (b64c (a % 4 * 16 + b / 16)) = some (a % 4 * 16 + b / 16) :=
      b64Val_b64c _ (by omega)
    have h3 : base64Val (b64c (b % 16 * 4)) = some (b % 16 * 4) := b64Val_b64c _ (by omega)
    have hy : b64c (b % 16 * 4) ≠ '=' := b64c_ne_pad _ (by omega)
    have e1 : b64Byte1 (a / 4) (a % 4 * 16 + b / 16) = a := by unfold b64Byte1; omega
    have e2 : b64Byte2 (a % 4 * 16 + b / 16) (b % 16 * 4) = b := by unfold b64Byte2; omega
    simp [base64Encode, base64Decode, h1, h2, h3, hy, e1, e2]
  | case4 a b c rest ih =>
    have ha : a < 256 := h a (by simp)
    have hb : b < 256 := h b (by simp)
    have hc : c < 256 := h c (by simp)
    have hrest : ∀ x ∈ rest, x < 256 := fun x hx => h x (by simp [hx])
    have h1 : base64Val (b64c (a / 4)) = some (a / 4) := b64Val_b64c _ (by omega)
    have h2 : base64Val (b64c (a % 4 * 16 + b / 16)) = some (a % 4 * 16 + b / 16) :=
      b64Val_b64c _ (by omega)
    have h3 : base64Val (b64c (b % 16 * 4 + c / 64)) = some (b % 16 * 4 + c / 64) :=
      b64Val_b64c _ (by omega)
    have h4 : base64Val (b64c (c % 64)) = some (c % 64) := b64Val_b64c _ (by omega)
    have hy : b64c (b % 16 * 4 + c / 64) ≠ '=' := b64c_ne_pad _ (by omega)
    have hz : b64c (c % 64) ≠ '=' := b64c_ne_pad _ (by omega)
    have e1 : b64Byte1 (a / 4) (a % 4 * 16 + b / 16) = a := by unfold b64Byte1; omega
    have e2 : b64Byte2 (a % 4 * 16 + b / 16) (b % 16 * 4 + c / 64) = b := by
      unfold b64Byte2; omega
    have e3 : b64Byte3 (b % 16 * 4 + c / 64) (c % 64) = c := by unfold b64Byte3; omega
    simp [base64Encode, base64Decode, h1, h2, h3, h4, hy, hz, e1, e2, e3, ih hrest]

/-! ### Claim C1: the Access Gate versus Token Service validate -/

/-- C1 counterexample: a well-signed, unexpired admin token whose subject (id 1)
is absent from the `admin_users` table is rejected by `verifyAdminToken`
(valid = false), yet `authMiddleware` admits the request carrying it: the
middleware checks only the signature, expiry and discriminator, never the
backing store. -/
theorem authMiddleware_admits_validate_rejected_token :
    (verifyAdminToken [] 0 (generateToken 1 0)).valid = false ∧
    authMiddleware 0 (AuthHeader.bearer (generateToken 1 0)) = GateResult.allow 1 := by
  decide

/-- C1 amended: `authMiddleware` rejects with 401 exactly the requests whose
bearer token fails `verifyToken` (bad signature or expired) or lacks the
`admin` discriminator; it does not consult the backing store, so any
well-signed unexpired admin token — including one whose subject principal has
been deleted — is admitted with that token's subject identifier. -/
theorem authMiddleware_checks_token_only (now : Nat) (t : Jwt) (uid iss : Nat) :
    ((∀ p, verifyToken now t = some p → p.typ ≠ "admin") →
      authMiddleware now (AuthHeader.bearer t) = GateResult.reject 401 "Invalid token") ∧
    (now < iss + tokenLifetime →
      authMiddleware now (AuthHeader.bearer (generateToken uid iss)) =
        GateResult.allow uid) := by
  constructor
  · intro h
    cases hv : verifyToken now t with
    | none => simp [authMiddleware, hv]
    | some p => simp [authMiddleware, hv, h p hv]
  · intro hnow
    simp [authMiddleware, verifyToken, generateToken, jwtSign, jwtVerify, hnow]

/-- Witness for the amended C1: a token signed with a foreign secret is
rejected; a freshly issued token for principal 2 is admitted. -/
theorem authMiddleware_checks_token_only_witness :
    authMiddleware 0 (AuthHeader.bearer ⟨⟨1, "admin"⟩, "wrong-secret", 999999999999⟩) =
      GateResult.reject 401 "Invalid token" ∧
    authMiddleware 0 (AuthHeader.bearer (generateToken 2 0)) = GateResult.allow 2 := by
  constructor
  · exact (authMiddleware_checks_token_only 0
      ⟨⟨1, "admin"⟩, "wrong-secret", 999999999999⟩ 2 0).1
      (by intro p hp; simp [verifyToken, jwtVerify, jwtSecret] at hp)
  · exact (authMiddleware_checks_token_only 0
      ⟨⟨1, "admin"⟩, "wrong-secret", 999999999999⟩ 2 0).2 (by decide)

/-! ### Claim C3: authenticate/validate round-trip -/

/-- C3: for a (username, password) pair matching a stored principal,
`adminLogin` succeeds, returns the token signed for that principal, and a
later `verifyAdminToken` of that token (within its 24h lifetime, principal
still present) is valid and resolves to the principal's identifier. -/
theorem adminLogin_verifyAdminToken_roundtrip
    (db : List AdminUser) (bc : String → String → Bool) (now now' : Nat)
    (username password : String) (user : AdminUser)
    (hfind : db.find? (fun u => u.username == username) = some user)
    (hpw : bc password user.passwordHash = true)
    (hnow : now' < now + tokenLifetime) :
    (adminLogin db bc now username password).success = true ∧
    (adminLogin db bc now username password).token = some (generateToken user.id now) ∧
    verifyAdminToken db now' (generateToken user.id now) =
      { valid := true, userId := some user.id } := by
  have hmem : user ∈ db := List.mem_of_find?_eq_some hfind
  refine ⟨by simp [adminLogin, hfind, hpw], by simp [adminLogin, hfind, hpw], ?_⟩
  have hv : verifyToken now' (generateToken user.id now) = some ⟨user.id, "admin"⟩ := by
    simp [verifyToken, generateToken, jwtSign, jwtVerify, hnow]
  have hfId : (db.find? (fun u => u.id == user.id)).isSome = true := by
    simp only [List.find?_isSome]
    exact ⟨user, hmem, by simp⟩
  simp [verifyAdminToken, hv, hfId]

/-- Witness for C3: concrete database with one admin row. -/
theorem adminLogin_verifyAdminToken_roundtrip_witness :
    (adminLogin [⟨1, "admin", "hash1"⟩] (fun _ _ => true) 0 "admin" "pw").success = true ∧
    (adminLogin [⟨1, "admin", "hash1"⟩] (fun _ _ => true) 0 "admin" "pw").token =
      some (generateToken 1 0) ∧
    verifyAdminToken [⟨1, "admin", "hash1"⟩] 5 (generateToken 1 0) =
      { valid := true, userId := some 1 } :=
  adminLogin_verifyAdminToken_roundtrip [⟨1, "admin", "hash1"⟩] (fun _ _ => true)
    0 5 "admin" "pw" ⟨1, "admin", "hash1"⟩ (by decide) rfl (by decide)

/-! ### Claim C4: expired or foreign-signed tokens never validate -/

/-- C4: a token past its expiry instant, or signed with a secret other than
the service's current one, always fails `verifyAdminToken` (valid = false,
the uniform invalid-token result), whatever its other claims. -/
theorem verifyAdminToken_rejects_expired_or_foreign
    (db : List AdminUser) (now : Nat) (t : Jwt)
    (h : t.exp ≤ now ∨ t.signedWith ≠ jwtSecret) :
    verifyAdminToken db now t = { valid := false, userId := none } := by
  have hcond : ¬(t.signedWith = jwtSecret ∧ now < t.exp) := by
    rcases h with h | h
    · rintro ⟨-, h2⟩; omega
    · rintro ⟨h1, -⟩; exact h h1
  simp [verifyAdminToken, verifyToken, jwtVerify, hcond]

/-- Witness for C4: an already-expired token signed with the right secret. -/
theorem verifyAdminToken_rejects_expired_or_foreign_witness :
    verifyAdminToken [] 7 ⟨⟨1, "admin"⟩, jwtSecret, 7⟩ =
      { valid := false, userId := none } :=
  verifyAdminToken_rejects_expired_or_foreign [] 7 ⟨⟨1, "admin"⟩, jwtSecret, 7⟩
    (Or.inl (by decide))

/-! ### Claim C5: revocation on principal deletion -/

/-- C5: an unexpired token issued to a principal fails `verifyAdminToken`
(valid = false) as soon as no row with that principal's id remains in the
`admin_users` table, the signature and discriminator notwithstanding. -/
theorem deleted_principal_token_fails_validate
    (db : List AdminUser) (uid iss now : Nat)
    (hnow : now < iss + tokenLifetime)
    (habsent : ∀ u ∈ db, u.id ≠ uid) :
    (verifyAdminToken db now (generateToken uid iss)).valid = false := by
  have hv : verifyToken now (generateToken uid iss) = some ⟨uid, "admin"⟩ := by
    simp [verifyToken, generateToken, jwtSign, jwtVerify, hnow]
  have hfind : db.find? (fun u => u.id == uid) = none := by
    rw [List.find?_eq_none]
    intro u hu
    simp [habsent u hu]
  simp [verifyAdminToken, hv, hfind]

/-- Witness for C5: the table still has a row, but not the token's subject. -/
theorem deleted_principal_token_fails_validate_witness :
    (verifyAdminToken [⟨2, "other", "h"⟩] 5 (generateToken 1 0)).valid = false :=
  deleted_principal_token_fails_validate [⟨2, "other", "h"⟩] 1 0 5 (by decide) (by decide)

/-! ### Claim C6: uniform InvalidCredentials error -/

/-- C6: a login with an unknown username and a login with a known username
but wrong password return one and the same result object, namely the
`Invalid credentials` failure — the two causes are observationally
indistinguishable from the returned value. -/
theorem adminLogin_uniform_invalid_credentials
    (db : List AdminUser) (bc : String → String → Bool) (now : Nat)
    (u₁ p₁ u₂ p₂ : String) (user : AdminUser)
    (h₁ : db.find? (fun u => u.username == u₁) = none)
    (h₂ : db.find? (fun u => u.username == u₂) = some user)
    (hpw : bc p₂ user.passwordHash = false) :
    adminLogin db bc now u₁ p₁ = adminLogin db bc now u₂ p₂ ∧
    adminLogin db bc now u₁ p₁ =
      { success := false, token := none, expiry := none,
        error := some "Invalid credentials" } := by
  constructor <;> simp [adminLogin, h₁, h₂, hpw]

/-- Witness for C6: unknown user "alice" versus known user "bob" with a
password rejected by the hash comparison. -/
theorem adminLogin_uniform_invalid_credentials_witness :
    adminLogin [⟨1, "bob", "h"⟩] (fun _ _ => false) 0 "alice" "x" =
      adminLogin [⟨1, "bob", "h"⟩] (fun _ _ => false) 0 "bob" "y" ∧
    adminLogin [⟨1, "bob", "h"⟩] (fun _ _ => false) 0 "alice" "x" =
      { success := false, token := none, expiry := none,
        error := some "Invalid credentials" } :=
  adminLogin_uniform_invalid_credentials [⟨1, "bob", "h"⟩] (fun _ _ => false) 0
    "alice" "x" "bob" "y" ⟨1, "bob", "h"⟩ (by decide) (by decide) rfl

/-! ### Claim C10: the invalid result still carries the subject identifier -/

/-- C10: for a well-signed, unexpired, admin-class token whose subject is
absent from the store, `verifyAdminToken` returns `valid = false` but the
result's `userId` field still holds the token's subject identifier. -/
theorem verifyAdminToken_invalid_result_carries_userId
    (db : List AdminUser) (now : Nat) (t : Jwt)
    (hsig : t.signedWith = jwtSecret) (hlt : now < t.exp)
    (htyp : t.payload.typ = "admin")
    (habsent : ∀ u ∈ db, u.id ≠ t.payload.userId) :
    verifyAdminToken db now t = { valid := false, userId := some t.payload.userId } := by
  have hv : verifyToken now t = some t.payload := by
    simp [verifyToken, jwtVerify, hsig, hlt]
  have hfind : db.find? (fun u => u.id == t.payload.userId) = none := by
    rw [List.find?_eq_none]
    intro u hu
    simp [habsent u hu]
  simp [verifyAdminToken, hv, htyp, hfind]

/-- Witness for C10: deleted subject 1, result still exposes identifier 1. -/
theorem verifyAdminToken_invalid_result_carries_userId_witness :
    verifyAdminToken [⟨2, "other", "h"⟩] 5 (generateToken 1 0) =
      { valid := false, userId := some 1 } :=
  verifyAdminToken_invalid_result_carries_userId [⟨2, "other", "h"⟩] 5
    (generateToken 1 0) rfl (by decide) rfl (by decide)

/-! ### Claim C7: identifier shape and content round-trip of uploadFile -/

/-- Decidable form of "every character is a lower-case hex digit". -/
def isHexString (s : String) : Bool := s.data.all (fun c => hexDigits.contains c)

/-- C7: for a payload with a readable byte buffer, `uploadFile` succeeds,
stores the record, and returns an identifier that is the 32-character
hexadecimal rendering of the 16 random bytes together with a
`data:<mimetype>;base64,...` URL whose base64 part decodes back to exactly
the payload bytes. -/
theorem uploadFile_register_contract
    (rand : List Nat) (now : Nat) (st : UploadsMap) (file : UploadedFile)
    (bytes : List Nat) (hdata : file.data = some bytes)
    (hbytes : ∀ b ∈ bytes, b < 256)
    (hlen : rand.length = 16) (hrand : ∀ b ∈ rand, b < 256) :
    uploadFile rand now st file =
      Except.ok
        ({ id := String.mk (hexEncode rand),
           url := "data:" ++ file.mimetype ++ ";base64," ++ String.mk (base64Encode bytes),
           name := file.name, size := file.size },
         (String.mk (hexEncode rand),
          { id := String.mk (hexEncode rand), name := file.name, size := file.size,
            mimetype := file.mimetype,
            dataUrl := "data:" ++ file.mimetype ++ ";base64," ++
              String.mk (base64Encode bytes),
            createdAt := now }) :: st) ∧
    (String.mk (hexEncode rand)).length = 32 ∧
    isHexString (String.mk (hexEncode rand)) = true ∧
    base64Decode (base64Encode bytes) = some bytes := by
  refine ⟨by simp [uploadFile, hdata, dataUrlOf], ?_, ?_, base64Decode_base64Encode bytes hbytes⟩
  · have h : (String.mk (hexEncode rand)).length = (hexEncode rand).length := rfl
    rw [h, hexEncode_length, hlen]
  · have h : ∀ c ∈ hexEncode rand, c ∈ hexDigits := hexEncode_mem rand hrand
    simp only [isHexString, List.all_eq_true]
    intro c hc
    simpa using h c hc

/-- Witness for C7: the spec's scenario, payload "abc" as image/jpeg with
16 concrete random bytes. -/
theorem uploadFile_register_contract_witness :
    uploadFile (List.replicate 16 0) 0 [] ⟨"x.jpg", some [97, 98, 99], 3, "image/jpeg"⟩ =
      Except.ok
        ({ id := String.mk (hexEncode (List.replicate 16 0)),
           url := "data:" ++ "image/jpeg" ++ ";base64," ++
             String.mk (base64Encode [97, 98, 99]),
           name := "x.jpg", size := 3 },
         (String.mk (hexEncode (List.replicate 16 0)),
          { id := String.mk (hexEncode (List.replicate 16 0)), name := "x.jpg", size := 3,
            mimetype := "image/jpeg",
            dataUrl := "data:" ++ "image/jpeg" ++ ";base64," ++
              String.mk (base64Encode [97, 98, 99]),
            createdAt := 0 }) :: []) ∧
    (String.mk (hexEncode (List.replicate 16 0))).length = 32 ∧
    isHexString (String.mk (hexEncode (List.replicate 16 0))) = true ∧
    base64Decode (base64Encode [97, 98, 99]) = some [97, 98, 99] :=
  uploadFile_register_contract (List.replicate 16 0) 0 []
    ⟨"x.jpg", some [97, 98, 99], 3, "image/jpeg"⟩ [97, 98, 99]
    rfl (by decide) (by decide) (by decide)

/-! ### Claim C8: no content-based deduplication -/

/-- C8: two `uploadFile` calls with the very same payload, under distinct
outputs of the random source, return distinct identifiers and the registry
ends up holding both records, retrievable under their own keys. -/
theorem uploadFile_no_dedup
    (rand₁ rand₂ : List Nat) (now₁ now₂ : Nat) (st : UploadsMap) (file : UploadedFile)
    (bytes : List Nat) (hdata : file.data = some bytes)
    (h₁ : ∀ b ∈ rand₁, b < 256) (h₂ : ∀ b ∈ rand₂, b < 256)
    (hne : rand₁ ≠ rand₂)
    (r₁ : UploadResult) (st₁ : UploadsMap) (r₂ : UploadResult) (st₂ : UploadsMap)
    (e₁ : uploadFile rand₁ now₁ st file = .ok (r₁, st₁))
    (e₂ : uploadFile rand₂ now₂ st₁ file = .ok (r₂, st₂)) :
    r₁.id ≠ r₂.id ∧
    (getFile st₂ r₁.id).isSome = true ∧
    (getFile st₂ r₂.id).isSome = true := by
  simp only [uploadFile, hdata, Except.ok.injEq, Prod.mk.injEq] at e₁ e₂
  obtain ⟨hr₁, hst₁⟩ := e₁
  obtain ⟨hr₂, hst₂⟩ := e₂
  subst hst₁ hst₂
  have hid : r₁.id = String.mk (hexEncode rand₁) := by rw [← hr₁]
  have hid₂ : r₂.id = String.mk (hexEncode rand₂) := by rw [← hr₂]
  have hne' : String.mk (hexEncode rand₁) ≠ String.mk (hexEncode rand₂) := by
    intro h
    exact hne (hexEncode_injOn rand₁ rand₂ h₁ h₂ (by injection h))
  refine ⟨by rw [hid, hid₂]; exact hne', ?_, ?_⟩
  · rw [hid]
    simp only [getFile, mapGet, List.find?]
    split <;> simp [List.find?]
  · rw [hid₂]
    simp [getFile, mapGet, List.find?]

/-- Witness for C8: the same "abc" payload registered twice with two
distinct 16-byte random strings. -/
theorem uploadFile_no_dedup_witness :
    ({ id := String.mk (hexEncode (List.replicate 16 0)),
       url := dataUrlOf "image/jpeg" [97, 98, 99], name := "x.jpg", size := 3 }
      : UploadResult).id ≠
      ({ id := String.mk (hexEncode (List.replicate 16 1)),
         url := dataUrlOf "image/jpeg" [97, 98, 99], name := "x.jpg", size := 3 }
        : UploadResult).id ∧
    (getFile
      [(String.mk (hexEncode (List.replicate 16 1)),
        { id := String.mk (hexEncode (List.replicate 16 1)), name := "x.jpg", size := 3,
          mimetype := "image/jpeg", dataUrl := dataUrlOf "image/jpeg" [97, 98, 99],
          createdAt := 0 }),
       (String.mk (hexEncode (List.replicate 16 0)),
        { id := String.mk (hexEncode (List.replicate 16 0)), name := "x.jpg", size := 3,
          mimetype := "image/jpeg", dataUrl := dataUrlOf "image/jpeg" [97, 98, 99],
          createdAt := 0 })]
      (String.mk (hexEncode (List.replicate 16 0)))).isSome = true ∧
    (getFile
      [(String.mk (hexEncode (List.replicate 16 1)),
        { id := String.mk (hexEncode (List.replicate 16 1)), name := "x.jpg", size := 3,
          mimetype := "image/jpeg", dataUrl := dataUrlOf "image/jpeg" [97, 98, 99],
          createdAt := 0 }),
       (String.mk (hexEncode (List.replicate 16 0)),
        { id := String.mk (hexEncode (List.replicate 16 0)), name := "x.jpg", size := 3,
          mimetype := "image/jpeg", dataUrl := dataUrlOf "image/jpeg" [97, 98, 99],
          createdAt := 0 })]
      (String.mk (hexEncode (List.replicate 16 1)))).isSome = true :=
  uploadFile_no_dedup (List.replicate 16 0) (List.replicate 16 1) 0 0 []
    ⟨"x.jpg", some [97, 98, 99], 3, "image/jpeg"⟩ [97, 98, 99] rfl
    (by decide) (by decide) (by decide) _ _ _ _ rfl rfl

/-! ### Claim C9: registry keys are exactly the issued identifiers -/

/-- The reachable states of the upload registry: it starts empty, and each
successful `uploadFile` call prepends one entry and issues the returned
identifier.  A failing call changes nothing, so it does not alter
reachability; `getFile` is read-only. -/
inductive Reachable : List String → UploadsMap → Prop where
  | init : Reachable [] []
  | registerOk (rand : List Nat) (now : Nat) (file : UploadedFile)
      {issued : List String} {st : UploadsMap} {r : UploadResult} {st' : UploadsMap} :
      Reachable issued st → uploadFile rand now st file = .ok (r, st') →
      Reachable (r.id :: issued) st'

theorem getFile_cons_self (k : String) (v : FileInfo) (st : UploadsMap) :
    getFile ((k, v) :: st) k = some v := by
  simp [getFile, mapGet, List.find?]

theorem getFile_cons_ne (k₀ : String) (v : FileInfo) (st : UploadsMap) (k : String)
    (h : (k₀ == k) = false) : getFile ((k₀, v) :: st) k = getFile st k := by
  simp [getFile, mapGet, List.find?, h]

/-- C9: in every reachable registry state, a key is present in the map iff it
was issued by some earlier `uploadFile`; in particular `getFile` on an
identifier never issued returns `none` (NotFound). -/
theorem getFile_isSome_iff_issued {issued : List String} {st : UploadsMap}
    (h : Reachable issued st) (k : String) :
    ((getFile st k).isSome = true ↔ k ∈ issued) ∧
    (k ∉ issued → getFile st k = none) := by
  have main : (getFile st k).isSome = true ↔ k ∈ issued := by
    induction h with
    | init => simp [getFile, mapGet]
    | registerOk rand now file hre he ih =>
      rename_i issued st r st'
      cases hdata : file.data with
      | none => simp [uploadFile, hdata] at he
      | some bytes =>
        simp only [uploadFile, hdata, Except.ok.injEq, Prod.mk.injEq] at he
        obtain ⟨hr, hst⟩ := he
        subst hst
        have hid : r.id = String.mk (hexEncode rand) := by rw [← hr]
        rw [hid]
        by_cases hk : String.mk (hexEncode rand) = k
        · subst hk
          simp [getFile_cons_self]
        · rw [getFile_cons_ne _ _ _ _ (by simp [hk])]
          rw [ih, List.mem_cons]
          exact (or_iff_right (fun h' => hk h'.symm)).symm
  refine ⟨main, fun hk => ?_⟩
  rcases ho : getFile st k with _ | v
  · rfl
  · exact absurd (main.mp (by simp [ho])) hk

/-- Witness for C9: one registration issued one identifier; a foreign key is
absent from the map and `getFile` returns `none` on it. -/
theorem getFile_isSome_iff_issued_witness :
    ((getFile
        [(String.mk (hexEncode (List.replicate 16 0)),
          { id := String.mk (hexEncode (List.replicate 16 0)), name := "x.jpg", size := 3,
            mimetype := "image/jpeg", dataUrl := dataUrlOf "image/jpeg" [97, 98, 99],
            createdAt := 0 })] "zz").isSome = true ↔
      "zz" ∈ [String.mk (hexEncode (List.replicate 16 0))]) ∧
    ("zz" ∉ [String.mk (hexEncode (List.replicate 16 0))] →
      getFile
        [(String.mk (hexEncode (List.replicate 16 0)),
          { id := String.mk (hexEncode (List.replicate 16 0)), name := "x.jpg", size := 3,
            mimetype := "image/jpeg", dataUrl := dataUrlOf "image/jpeg" [97, 98, 99],
            createdAt := 0 })] "zz" = none) :=
  getFile_isSome_iff_issued
    (Reachable.registerOk (List.replicate 16 0) 0
      ⟨"x.jpg", some [97, 98, 99], 3, "image/jpeg"⟩ Reachable.init rfl) "zz"

/-! ### Claim C2: batch upload is not best-effort on registration failure -/

/-- C2 counterexample: a two-payload batch whose first payload passes the
mimetype/size validation but has no readable byte buffer (`uploadFile`
throws `'File upload failed'`).  The endpoint answers 500 `'Server error'`
with nothing registered: the healthy sibling payload is neither processed
nor reported.  Alone, the same sibling registers fine. -/
theorem batch_registration_failure_aborts_siblings :
    postMotorcycleImages 0 100 [List.replicate 16 0, List.replicate 16 1] [] []
      (some [⟨"bad.jpg", none, 10, "image/jpeg"⟩,
             ⟨"x.jpg", some [97, 98, 99], 3, "image/jpeg"⟩]) =
      BatchResponse.serverError "Server error" [] [] ∧
    postMotorcycleImages 0 100 [List.replicate 16 0] [] []
      (some [⟨"x.jpg", some [97, 98, 99], 3, "image/jpeg"⟩]) =
      BatchResponse.ok
        [{ imageUrl := dataUrlOf "image/jpeg" [97, 98, 99], imageName := "x.jpg",
           size := 3, isPrimary := true }]
        [(String.mk (hexEncode (List.replicate 16 0)),
          { id := String.mk (hexEncode (List.replicate 16 0)), name := "x.jpg", size := 3,
            mimetype := "image/jpeg", dataUrl := dataUrlOf "image/jpeg" [97, 98, 99],
            createdAt := 0 })]
        [{ imageUrl := dataUrlOf "image/jpeg" [97, 98, 99], imageName := "x.jpg",
           size := 3, isPrimary := true }] := by
  constructor
  · rfl
  · rfl

/-- C2 amended: a payload rejected by the endpoint's own validation (wrong
media-type class or over the size ceiling) is skipped without affecting its
siblings; but a payload whose `uploadFile` registration throws aborts the
whole batch at that point — the remaining payloads are not processed and the
response is the single 500 `'Server error'`, not per-payload reports. -/
theorem batch_skip_validation_but_abort_on_registration
    (now maxSize : Nat) (rands : List (List Nat)) (st : UploadsMap)
    (db acc : List ImageRow) (skipped bad : UploadedFile) (rest : List UploadedFile)
    (hskip : strStartsWith skipped.mimetype "image/" = false ∨ maxSize < skipped.size)
    (hbadmt : strStartsWith bad.mimetype "image/" = true)
    (hbadsize : bad.size ≤ maxSize)
    (hbaddata : bad.data = none) :
    processFiles now maxSize rands st db acc (skipped :: rest) =
      processFiles now maxSize rands st db acc rest ∧
    processFiles now maxSize rands st db acc (bad :: rest) =
      BatchResponse.serverError "Server error" st db := by
  constructor
  · rcases hskip with h | h
    · simp [processFiles, h]
    · cases hsw : strStartsWith skipped.mimetype "image/" <;>
        simp [processFiles, hsw, h]
  · have hns : ¬ maxSize < bad.size := by omega
    simp [processFiles, hbadmt, hns, uploadFile, hbaddata]

/-- Witness for the amended C2: a text payload is skipped, a buffer-less
image payload aborts with the uniform server error. -/
theorem batch_skip_validation_but_abort_on_registration_witness :
    processFiles 0 100 [List.replicate 16 0] [] [] []
      (⟨"notes.txt", some [1], 1, "text/plain"⟩ ::
        [⟨"x.jpg", some [97, 98, 99], 3, "image/jpeg"⟩]) =
      processFiles 0 100 [List.replicate 16 0] [] [] []
        [⟨"x.jpg", some [97, 98, 99], 3, "image/jpeg"⟩] ∧
    processFiles 0 100 [List.replicate 16 0] [] [] []
      (⟨"bad.jpg", none, 10, "image/jpeg"⟩ ::
        [⟨"x.jpg", some [97, 98, 99], 3, "image/jpeg"⟩]) =
      BatchResponse.serverError "Server error" [] [] :=
  batch_skip_validation_but_abort_on_registration 0 100 [List.replicate 16 0] [] [] []
    ⟨"notes.txt", some [1], 1, "text/plain"⟩ ⟨"bad.jpg", none, 10, "image/jpeg"⟩
    [⟨"x.jpg", some [97, 98, 99], 3, "image/jpeg"⟩]
    (Or.inl (by decide)) (by decide) (by decide) rfl

end MJ5
